import Mathlib

/-!
Verification of the aliyundrive-go client's rapid-upload proof protocol.

The definitions below are a shallow embedding of the Go sources in
`pkg/aliyun/drive` (`model.go`, `drive.go`).  Go's `int32` values are
represented by their two's-complement bit patterns as `Nat` values in
`[0, 2^32)`; 32-bit wraparound is written as `% 4294967296`.  Go strings
are byte sequences (UTF-8); they are represented as `List Nat` of bytes
where byte-level access matters, obtained from Lean `String` via an
explicit UTF-8 encoder.  Fallible operations (Go run-time panics such as
modulo by zero) are modelled with `Option`.
-/

set_option maxRecDepth 100000
set_option maxHeartbeats 2000000

namespace AliyunDrive

/-- 2^32, the modulus of Go `int32` / `uint32` bit patterns. -/
def two32 : Nat := 4294967296

/-- Bit pattern of a (possibly negative) Go integer literal as `int32`. -/
def i32 (k : Int) : Nat := (k % 4294967296).toNat

/-- Arithmetic (sign-extending) right shift by 16 of an `int32` bit pattern,
as used by Go `n >> 16` on `int32`. -/
def asr16 (x : Nat) : Nat :=
  if x < 2147483648 then x >>> 16 else (x >>> 16) ||| 4294901760

/-- Bitwise NOT of an `int32` bit pattern (Go `^t`). -/
def compl32 (x : Nat) : Nat := x ^^^ 4294967295

/-- Go `func I(n, t int32) int32`: 32-bit wrapping addition written with the
16-bit carry trick of the ported JavaScript source. -/
def I (n t : Nat) : Nat :=
  let e := (65535 &&& n) + (65535 &&& t)
  ((((asr16 n + asr16 t + (e >>> 16)) <<< 16) % two32) ||| (65535 &&& e))

/-- Go `func O(n, t, e, a, r, o int32) int32`: add, rotate left by `r`, add. -/
def O (n t e a r o : Nat) : Nat :=
  let l := I (I t n) (I a o)
  I (((l <<< r) % two32) ||| (l >>> (32 - r))) e

/-- Go `func L`: round function `t&e | ^t&a` fed to `O`. -/
def L (n t e a r i l : Nat) : Nat :=
  O ((t &&& e) ||| (compl32 t &&& a)) n t r i l

/-- Go `func A`: round function `t&a | e&^a` fed to `O`. -/
def A (n t e a r i l : Nat) : Nat :=
  O ((t &&& a) ||| (e &&& compl32 a)) n t r i l

/-- Go `func S`: round function `t^e^a` fed to `O`. -/
def S (n t e a r i l : Nat) : Nat :=
  O (t ^^^ e ^^^ a) n t r i l

/-- Go `func C`: round function `e ^ (t | ^a)` fed to `O`. -/
def C (n t e a r i l : Nat) : Nat :=
  O (e ^^^ (t ||| compl32 a)) n t r i l

/-- One word of Go `func D`: the loop `e[i/4] |= (255 & byte) << (8*(i%4))`
ORs byte `i` into word `i/4` at bit offset `8*(i%4)`, so word `j` is built
exactly from the (at most four) bytes `4j .. 4j+3`, little-endian.  `bs` are
those bytes and `j` is the running `i % 4`. -/
def packWord : Nat → List Nat → Nat
  | _, [] => 0
  | j, b :: rest => (((255 &&& b) <<< (8 * (j % 4))) % two32) ||| packWord (j + 1) rest

/-- Go `func D(n string) []int32`: pack the bytes of the message, 4 bytes
little-endian per 32-bit word, into `(len-1)>>2 + 1` words (empty input
gives an empty slice); rendered word by word, four bytes at a time. -/
def D : List Nat → List Nat
  | [] => []
  | [b0] => [packWord 0 [b0]]
  | [b0, b1] => [packWord 0 [b0, b1]]
  | [b0, b1, b2] => [packWord 0 [b0, b1, b2]]
  | b0 :: b1 :: b2 :: b3 :: rest => packWord 0 [b0, b1, b2, b3] :: D rest

/-- One 16-word block of the compression loop inside Go `func P`: the 64
rounds (four passes of 16) followed by the feed-forward additions. -/
def pBlock (n : List Nat) (e : Nat) (s : Nat × Nat × Nat × Nat) : Nat × Nat × Nat × Nat :=
  let u0 := s.1
  let d0 := s.2.1
  let f0 := s.2.2.1
  let m0 := s.2.2.2
  let w := fun j => n.getD (e + j) 0
  let u1 := L u0 d0 f0 m0 (w 0) 7 (i32 (-680876936))
  let m1 := L m0 u1 d0 f0 (w 1) 12 (i32 (-389564586))
  let f1 := L f0 m1 u1 d0 (w 2) 17 (i32 606105819)
  let d1 := L d0 f1 m1 u1 (w 3) 22 (i32 (-1044525330))
  let u2 := L u1 d1 f1 m1 (w 4) 7 (i32 (-176418897))
  let m2 := L m1 u2 d1 f1 (w 5) 12 (i32 1200080426)
  let f2 := L f1 m2 u2 d1 (w 6) 17 (i32 (-1473231341))
  let d2 := L d1 f2 m2 u2 (w 7) 22 (i32 (-45705983))
  let u3 := L u2 d2 f2 m2 (w 8) 7 (i32 1770035416)
  let m3 := L m2 u3 d2 f2 (w 9) 12 (i32 (-1958414417))
  let f3 := L f2 m3 u3 d2 (w 10) 17 (i32 (-42063))
  let d3 := L d2 f3 m3 u3 (w 11) 22 (i32 (-1990404162))
  let u4 := L u3 d3 f3 m3 (w 12) 7 (i32 1804603682)
  let m4 := L m3 u4 d3 f3 (w 13) 12 (i32 (-40341101))
  let f4 := L f3 m4 u4 d3 (w 14) 17 (i32 (-1502002290))
  let d4 := L d3 f4 m4 u4 (w 15) 22 (i32 1236535329)
  let u5 := A u4 d4 f4 m4 (w 1) 5 (i32 (-165796510))
  let m5 := A m4 u5 d4 f4 (w 6) 9 (i32 (-1069501632))
  let f5 := A f4 m5 u5 d4 (w 11) 14 (i32 643717713)
  let d5 := A d4 f5 m5 u5 (w 0) 20 (i32 (-373897302))
  let u6 := A u5 d5 f5 m5 (w 5) 5 (i32 (-701558691))
  let m6 := A m5 u6 d5 f5 (w 10) 9 (i32 38016083)
  let f6 := A f5 m6 u6 d5 (w 15) 14 (i32 (-660478335))
  let d6 := A d5 f6 m6 u6 (w 4) 20 (i32 (-405537848))
  let u7 := A u6 d6 f6 m6 (w 9) 5 (i32 568446438)
  let m7 := A m6 u7 d6 f6 (w 14) 9 (i32 (-1019803690))
  let f7 := A f6 m7 u7 d6 (w 3) 14 (i32 (-187363961))
  let d7 := A d6 f7 m7 u7 (w 8) 20 (i32 1163531501)
  let u8 := A u7 d7 f7 m7 (w 13) 5 (i32 (-1444681467))
  let m8 := A m7 u8 d7 f7 (w 2) 9 (i32 (-51403784))
  let f8 := A f7 m8 u8 d7 (w 7) 14 (i32 1735328473)
  let d8 := A d7 f8 m8 u8 (w 12) 20 (i32 (-1926607734))
  let u9 := S u8 d8 f8 m8 (w 5) 4 (i32 (-378558))
  let m9 := S m8 u9 d8 f8 (w 8) 11 (i32 (-2022574463))
  let f9 := S f8 m9 u9 d8 (w 11) 16 (i32 1839030562)
  let d9 := S d8 f9 m9 u9 (w 14) 23 (i32 (-35309556))
  let u10 := S u9 d9 f9 m9 (w 1) 4 (i32 (-1530992060))
  let m10 := S m9 u10 d9 f9 (w 4) 11 (i32 1272893353)
  let f10 := S f9 m10 u10 d9 (w 7) 16 (i32 (-155497632))
  let d10 := S d9 f10 m10 u10 (w 10) 23 (i32 (-1094730640))
  let u11 := S u10 d10 f10 m10 (w 13) 4 (i32 681279174)
  let m11 := S m10 u11 d10 f10 (w 0) 11 (i32 (-358537222))
  let f11 := S f10 m11 u11 d10 (w 3) 16 (i32 (-722521979))
  let d11 := S d10 f11 m11 u11 (w 6) 23 (i32 76029189)
  let u12 := S u11 d11 f11 m11 (w 9) 4 (i32 (-640364487))
  let m12 := S m11 u12 d11 f11 (w 12) 11 (i32 (-421815835))
  let f12 := S f11 m12 u12 d11 (w 15) 16 (i32 530742520)
  let d12 := S d11 f12 m12 u12 (w 2) 23 (i32 (-995338651))
  let u13 := C u12 d12 f12 m12 (w 0) 6 (i32 (-198630844))
  let m13 := C m12 u13 d12 f12 (w 7) 10 (i32 1126891415)
  let f13 := C f12 m13 u13 d12 (w 14) 15 (i32 (-1416354905))
  let d13 := C d12 f13 m13 u13 (w 5) 21 (i32 (-57434055))
  let u14 := C u13 d13 f13 m13 (w 12) 6 (i32 1700485571)
  let m14 := C m13 u14 d13 f13 (w 3) 10 (i32 (-1894986606))
  let f14 := C f13 m14 u14 d13 (w 10) 15 (i32 (-1051523))
  let d14 := C d13 f14 m14 u14 (w 1) 21 (i32 (-2054922799))
  let u15 := C u14 d14 f14 m14 (w 8) 6 (i32 1873313359)
  let m15 := C m14 u15 d14 f14 (w 15) 10 (i32 (-30611744))
  let f15 := C f14 m15 u15 d14 (w 6) 15 (i32 (-1560198380))
  let d15 := C d14 f15 m15 u15 (w 13) 21 (i32 1309151649)
  let u16 := C u15 d15 f15 m15 (w 4) 6 (i32 (-145523070))
  let m16 := C m15 u16 d15 f15 (w 11) 10 (i32 (-1120210379))
  let f16 := C f15 m16 u16 d15 (w 2) 15 (i32 718787259)
  let d16 := C d15 f16 m16 u16 (w 9) 21 (i32 (-343485551))
  (I u16 u0, I d16 d0, I f16 f0, I m16 m0)

/-- The outer block loop of Go `func P` (`for e := 0; e < len(n)-1; e += 16`),
run for its exact iteration count, passed in as fuel. -/
def pLoop (n : List Nat) : Nat → Nat → Nat × Nat × Nat × Nat → Nat × Nat × Nat × Nat
  | 0, _, s => s
  | k + 1, e, s => pLoop n k (e + 16) (pBlock n e s)

/-- The padding step of Go `func P`: allocate `14 + ((t+64)>>9<<4) + 2`
words, copy the message words in, OR the `1` bit (`128 << (t%32)`) into word
`t>>5`, and store the bit length `t` in word `14 + ((t+64)>>9<<4)`. -/
def padArr (n : List Nat) (t : Nat) : List Nat :=
  let size := 14 + ((t + 64) / 512) * 16 + 2
  let a0 := (n ++ List.replicate size 0).take size
  let a1 := a0.set (t / 32) ((a0.getD (t / 32) 0) ||| ((128 <<< (t % 32)) % two32))
  a1.set (14 + ((t + 64) / 512) * 16) (t % two32)

/-- The final `[]int32{u, d, f, m}` of Go `func P`. -/
def pWords (s : Nat × Nat × Nat × Nat) : List Nat := [s.1, s.2.1, s.2.2.1, s.2.2.2]

/-- Go `func P(n []int32, t int32) []int32`: pad the word array, then
compress each 512-bit block, starting from the four standard accumulator
words.  The loop `for e := 0; e < len(n)-1; e += 16` runs
`(len + 14) / 16` times. -/
def P (n : List Nat) (t : Nat) : List Nat :=
  pWords (pLoop (padArr n t) (((padArr n t).length + 14) / 16) 0
    (1732584193, i32 (-271733879), i32 (-1732584194), 271733878))

/-- The character loop of Go `func U` (`for t := 0; t < 32*len(n); t += 8`),
run for its exact iteration count, passed in as fuel. -/
def uGo (n : List Nat) : Nat → Nat → List Char
  | 0, _ => []
  | k + 1, t =>
      Char.ofNat (((n.getD (t / 32) 0) >>> (t % 32)) &&& 255) :: uGo n k (t + 8)

/-- Go `func U(n []int32) string`: emit each accumulator word as four
little-endian bytes, each as one rune. -/
def U (n : List Nat) : List Char := uGo n ((32 * n.length) / 8) 0

/-- UTF-8 encoding of one character, modelling the byte representation of a
Go string (Go source literals are UTF-8). -/
def charUtf8 (c : Char) : List Nat :=
  let n := c.toNat
  if n < 128 then [n]
  else if n < 2048 then [192 ||| (n >>> 6), 128 ||| (n &&& 63)]
  else if n < 65536 then
    [224 ||| (n >>> 12), 128 ||| ((n >>> 6) &&& 63), 128 ||| (n &&& 63)]
  else
    [240 ||| (n >>> 18), 128 ||| ((n >>> 12) &&& 63),
     128 ||| ((n >>> 6) &&& 63), 128 ||| (n &&& 63)]

/-- The bytes of a Lean `String`, as Go sees a string (UTF-8 bytes). -/
def strBytes (s : String) : List Nat := s.data.flatMap charUtf8

/-- Go `func H(n string) string`: digest of the message bytes; the result is
the list of 16 output runes.  `8*len(n)` is the bit length of the input. -/
def H (n : String) : List Char :=
  U (P (D (strBytes n)) (8 * (strBytes n).length))

/-- The table `a := "0123456789abcdef"` indexed by Go `func F`. -/
def hexTable : List Char := "0123456789abcdef".data

/-- Lookup in `hexTable` as Go's `a[i]` byte indexing. -/
def hexDigit (i : Nat) : Char := hexTable.getD i '0'

/-- The rune loop of Go `func F`: each input rune `i` becomes
`a[(t>>4)&15]` followed by `a[15&t]` with `t = uint32(i)`. -/
def hexPairs : List Char → List Char
  | [] => []
  | c :: rest =>
      hexDigit ((c.toNat >>> 4) &&& 15) :: hexDigit (15 &&& c.toNat) :: hexPairs rest

/-- Go `func F(n string) string`: lowercase hex rendering of the rune values. -/
def F (n : List Char) : String := String.mk (hexPairs n)

/-- Go `func G(n string) string`: hex digest of the message. -/
def G (n : String) : String := F (H n)

/-- Value of one hex digit, as accepted by Go `strconv.ParseUint(_, 16, 64)`. -/
def hexVal (c : Char) : Option Nat :=
  if '0' ≤ c ∧ c ≤ '9' then some (c.toNat - '0'.toNat)
  else if 'a' ≤ c ∧ c ≤ 'f' then some (c.toNat - 'a'.toNat + 10)
  else if 'A' ≤ c ∧ c ≤ 'F' then some (c.toNat - 'A'.toNat + 10)
  else none

/-- The digit loop of Go `strconv.ParseUint` base 16 (range checks are not
modelled: the 16-digit inputs used here always fit in 64 bits). -/
def parseHexDigits : List Char → Nat → Option Nat
  | [], acc => some acc
  | c :: rest, acc =>
      match hexVal c with
      | none => none
      | some v => parseHexDigits rest (16 * acc + v)

/-- Go `strconv.ParseUint(h, 16, 64)`: an empty string is a syntax error. -/
def parseHexList : List Char → Option Nat
  | [] => none
  | l => parseHexDigits l 0

/-- Go unsigned `%`: modulo by zero is a run-time panic, modelled as `none`. -/
def goUMod (a b : Nat) : Option Nat := if b = 0 then none else some (a % b)

/-- Go `func CalcProofOffset(accessToken string, fileSize int64) int64`:
parse the first 16 hex characters of `G(accessToken)` as an unsigned 64-bit
integer and reduce it modulo `fileSize`.  The parse error is discarded by
the source (`a, _ := strconv.ParseUint(...)`, yielding 0 on error); the
modulo panics when `fileSize` is zero, hence the `Option` result. -/
def CalcProofOffset (accessToken : String) (fileSize : Nat) : Option Nat :=
  let h := (G accessToken).data.take 16
  let a := (parseHexList h).getD 0
  goUMod a fileSize

/-! ## Upload orchestration (`model.go`: `makePartInfoList`, `CreateFileWithProof`) -/

/-- Go `MaxPartSize = 1024 * 1024 * 1024` (1 GiB). -/
def MaxPartSize : Nat := 1024 * 1024 * 1024

/-- Go `type PartInfo struct { PartNumber int; UploadUrl string }`. -/
structure PartInfo where
  partNumber : Nat
  uploadUrl : String
deriving DecidableEq

/-- Go `func makePartInfoList(size int64) []*PartInfo`: one entry per full
`MaxPartSize` chunk plus one for a non-zero remainder, numbered from 1. -/
def makePartInfoList (size : Nat) : List PartInfo :=
  let partInfoNum := (if size % MaxPartSize > 0 then 1 else 0) + size / MaxPartSize
  (List.range partInfoNum).map (fun i => PartInfo.mk (i + 1) "")

/-- Go `type Node struct` (`model.go`); only the fields read by
`CreateFileWithProof` are carried. -/
structure Node where
  name : String
  parentId : String
  size : Nat
deriving DecidableEq

/-- Go `type FileProof struct`: the body of the create-with-proof handshake
request. -/
structure FileProof where
  driveId : String
  partInfoList : List PartInfo
  parentFileId : String
  name : String
  type : String
  checkNameMode : String
  size : Nat
  contentHash : String
  contentHashName : String
  proofCode : String
  proofVersion : String
deriving DecidableEq

/-- Go `type ProofResult struct`: the create-with-proof handshake response. -/
structure ProofResult where
  partInfoList : List PartInfo
  exist : Bool
  fileId : String
  rapidUpload : Bool
  uploadId : String
  fileName : String
deriving DecidableEq

/-- The network operations `CreateFileWithProof` can issue after validation:
the handshake POST, one PUT per part, and the finalize POST. -/
inductive NetOp where
  | createWithProof (proof : FileProof)
  | putPart (url : String)
  | completeUpload (fileId uploadId : String)
deriving DecidableEq

/-- Discriminator: is this operation a part-upload PUT? -/
def isPartUpload : NetOp → Bool
  | NetOp.putPart _ => true
  | _ => false

/-- Discriminator: is this operation the finalize/complete call? -/
def isFinalize : NetOp → Bool
  | NetOp.completeUpload _ _ => true
  | _ => false

/-- The error outcomes of `CreateFileWithProof` (`ErrorLivpUpload`,
`ErrorAlreadyExisted`, `failed to extract uploadUrl`). -/
inductive UploadError where
  | livpUpload
  | alreadyExisted
  | extractUploadUrlFailed
deriving DecidableEq

/-- Go `strings.HasSuffix(strings.ToLower(node.Name), ".livp")`.  The suffix
is ASCII, so byte-level suffix testing agrees with character-level testing;
`Char.toLower` matches Go's lowering on the ASCII range, the only range that
can produce `".livp"`. -/
def livpCheck (name : String) : Bool :=
  List.isSuffixOf ".livp".data (name.data.map Char.toLower)

/-- Go `func (drive *Drive) CreateFileWithProof(...)` (`model.go`), from the
livp guard onwards, as a function of the handshake response `pr` and of the
node id returned by the finalize call.  The second component is the trace of
network operations issued: the handshake, then — only in the part-upload
case — the per-part PUTs in plan order followed by the finalize call.
`rapid_upload` responses return the server-assigned `FileId` after the
handshake alone; `exist` responses surface `ErrorAlreadyExisted`; an empty
part list is a protocol error. -/
def CreateFileWithProof (driveId : String) (node : Node) (sha1Code proofCode : String)
    (pr : ProofResult) (completeNodeId : String) :
    Except UploadError String × List NetOp :=
  if livpCheck node.name then (Except.error UploadError.livpUpload, [])
  else
    let proof : FileProof :=
      FileProof.mk driveId (makePartInfoList node.size) node.parentId node.name
        "file" "refuse" node.size sha1Code "sha1" proofCode "v1"
    if pr.rapidUpload then
      (Except.ok pr.fileId, [NetOp.createWithProof proof])
    else if pr.exist then
      (Except.error UploadError.alreadyExisted, [NetOp.createWithProof proof])
    else if pr.partInfoList.length < 1 then
      (Except.error UploadError.extractUploadUrlFailed, [NetOp.createWithProof proof])
    else
      (Except.ok completeNodeId,
        NetOp.createWithProof proof ::
          (pr.partInfoList.map (fun part => NetOp.putPart part.uploadUrl) ++
            [NetOp.completeUpload pr.fileId pr.uploadId]))

/-! ## File cursor model (`model.go`: `calcProof`, `CalcSha1`) -/

/-- An open `*os.File`: its byte contents and the current read cursor. -/
structure GoFile where
  content : List Nat
  pos : Nat
deriving DecidableEq

/-- The standard base64 alphabet used by Go `base64.StdEncoding`. -/
def b64Table : List Char :=
  "ABCDEFGHIJKLMNOPQRSTUVWXYZabcdefghijklmnopqrstuvwxyz0123456789+/".data

/-- One base64 output character. -/
def b64Char (i : Nat) : Char := b64Table.getD i 'A'

/-- Go `base64.StdEncoding.EncodeToString`: standard base64 with `=`
padding. -/
def b64Encode : List Nat → List Char
  | [] => []
  | [b1] => [b64Char (b1 >>> 2), b64Char ((b1 &&& 3) <<< 4), '=', '=']
  | [b1, b2] =>
      [b64Char (b1 >>> 2), b64Char (((b1 &&& 3) <<< 4) ||| (b2 >>> 4)),
       b64Char ((b2 &&& 15) <<< 2), '=']
  | b1 :: b2 :: b3 :: rest =>
      b64Char (b1 >>> 2) :: b64Char (((b1 &&& 3) <<< 4) ||| (b2 >>> 4)) ::
        b64Char (((b2 &&& 15) <<< 2) ||| (b3 >>> 6)) :: b64Char (b3 &&& 63) ::
          b64Encode rest

/-- Go `buf := make([]byte, 8); in.Read(buf)`: the 8-byte buffer after the
read — the bytes available at the cursor, zero-padded to length 8 (a short
read near EOF leaves the zero bytes in place and the source encodes the
whole buffer). -/
def read8 (content : List Nat) (pos : Nat) : List Nat :=
  let got := (content.drop pos).take 8
  got ++ List.replicate (8 - got.length) 0

/-- Go `func calcProof(accessToken string, fileSize int64, in *os.File)`.
`seekOk` is whether the seek to the proof offset reported the requested
position (`sret == start`); on failure the source seeks back to 0 and
returns an error.  On success it reads up to 8 bytes (advancing the
cursor), base64-encodes the buffer, and seeks back to 0.  A zero `fileSize`
panics inside `CalcProofOffset` before any seek (`none`). -/
def calcProof (accessToken : String) (fileSize : Nat) (f : GoFile) (seekOk : Bool) :
    Option (GoFile × Except String String) :=
  match CalcProofOffset accessToken fileSize with
  | none => none
  | some start =>
      if seekOk then
        let f1 : GoFile := GoFile.mk f.content start
        let buf := read8 f1.content f1.pos
        let f2 : GoFile := GoFile.mk f1.content (f1.pos + ((f1.content.drop f1.pos).take 8).length)
        some (GoFile.mk f2.content 0, Except.ok (String.mk (b64Encode buf)))
      else
        some (GoFile.mk f.content 0, Except.error "failed to seek file")

/-- Go `func CalcSha1(in *os.File)`: `io.Copy(h, in)` reads from the current
cursor toward EOF.  `copyErr` is whether the copy fails with a read error
(`err != nil`) and `errPos` is the cursor position the failed copy had
reached when the error struck; on that early exit the source returns
`nil, "", err` without any `Seek`, so the underlying file keeps that cursor.
On success the digest of the bytes read is taken (the digest itself is
`crypto/sha1` from the Go standard library, outside this repository, so it
is a parameter here), the cursor is restored with `in.Seek(0, 0)`, and the
uppercase hex digest is returned. -/
def CalcSha1 (sha1Hex : List Nat → String) (f : GoFile) (copyErr : Bool) (errPos : Nat) :
    GoFile × Except String String :=
  if copyErr then
    (GoFile.mk f.content errPos, Except.error "failed to calculate sha1")
  else
    (GoFile.mk f.content 0, Except.ok (sha1Hex (f.content.drop f.pos)))


/-! ## Regression inputs (`model_test.go`: `TestCalcProofOffset`) -/

/-- The fixed JWT-like access token of the `TestCalcProofOffset` regression
test. -/
def jwtToken : String :=
  "eyJhbGciOiJSUzI1NiIsInR5cCI6IkpXVCJ9.eyJ1c2VySWQiOiI0MjQyNDI0MjQyNDI0MjQyNDI0MjQyNDI0MjQyNDI0MiIsImN1c3RvbUpzb24iOiJ7XCJjbGllbnRJZFwiOlwiMjVkelgzdmJZcWt0Vnh5WFwiLFwiZG9tYWluSWRcIjpcImJqMjlcIixcInNjb3BlXCI6W1wiRFJJVkUuQUxMXCIsXCJTSEFSRS5BTExcIixcIkZJTEUuQUxMXCIsXCJVU0VSLkFMTFwiLFwiU1RPUkFHRS5BTExcIixcIlNUT1JBR0VGSUxFLkxJU1RcIixcIkJBVENIXCIsXCJPQVVUSC5BTExcIixcIklNQUdFLkFMTFwiLFwiSU5WSVRFLkFMTFwiLFwiQUNDT1VOVC5BTExcIl0sXCJyb2xlXCI6XCJ1c2VyXCIsXCJyZWZcIjpcImh0dHBzOi8vd3d3LmFsaXl1bmRyaXZlLmNvbS9cIn0iLCJleHAiOjE2MjAxMjAyNzUsImlhdCI6MTYyMDExMzAxNX0K.AlMk63QdYz8pDxbyg7CoxzJ_pMh9t1RO9e6Ri4yTLQyDghbpCuAxY4W43RHkShyYd4MmE7xNywT4IDxARKkCGkKqwCD1AOdTRLta_JVos242QPJbaEC1XEs2CdwjmID8uv4IiB1FmVb37_LVaVg-oUvgm94-zfdAocoxkUBavHE"

/-- The padded word array `padArr (D (strBytes jwtToken)) 5768`, precomputed
so the twelve compression blocks can be checked three at a time. -/
def jwtPadded : List Nat :=
  [1749711205, 1768114018, 1397385551, 826899029, 1934190926, 894594633, 910771043, 1483762505,
   961168214, 1249469742, 1446142769, 1364677497, 1231638377, 1365921072, 1229213305, 1365921072,
   1229213305, 1365921072, 1229213305, 1365921072, 1229213305, 1365921072, 1229213305, 1231637808,
   1315785075, 1379099441, 1884643958, 875717242, 1248415593, 1245927479, 1816617578, 1382965868,
   2001099338, 2003586921, 1449807209, 1735157099, 1248683130, 1951884122, 1752061488, 2001098549,
   2001095785, 960977513, 1817663860, 1381454709, 1886013795, 1248676195, 1818905969, 2020165987,
   1315850595, 1110663786, 1229150316, 1999722294, 1246122601, 1433097802, 2018857333, 1229150285,
   1245927539, 1178948436, 894653011, 2017809474, 2020165987, 1516980579, 1430606922, 2018857333,
   1229150285, 1245927539, 1446008150, 1181437011, 2001097805, 2001095785, 1378964841, 1181439312,
   894653000, 2017809474, 2020165987, 1315719523, 1244746837, 1446007362, 2018857799, 2020297798,
   1378964810, 2020165987, 1248545123, 1313166914, 1229150281, 1245927539, 1448497488, 893604693,
   2017809474, 2020165987, 1818970467, 1683312974, 1181436998, 2001097805, 2001095785, 894784361,
   1381389143, 1181436998, 2001097805, 2001095785, 1314214249, 1446073412, 893605455, 2017809474,
   812403043, 1245927539, 2016567929, 1229150316, 1245927478, 1446142769, 1229150329, 1245927539,
   1515674233, 1886013795, 1751992675, 1112040496, 946425722, 1681089654, 1181568051, 1817731443,
   1382900273, 1515741561, 1315785836, 961766006, 812534115, 1245924457, 1095263596, 1164595049,
   1097485618, 1097485688, 1434078841, 1819101555, 1229153384, 1498697014, 1162104185, 1098534264,
   811093624, 1816211019, 859204429, 2052678737, 2017751096, 929528162, 2054713155, 1299210058,
   829700456, 1698254674, 879317558, 1363956857, 1751598201, 1967353954, 878278721, 1379087447,
   1750297416, 878991737, 927296845, 2004438648, 1145648212, 1263681912, 1799832427, 1131901259,
   1329672516, 1280463972, 1247764852, 846425942, 1347498548, 1164010058, 1163407683, 1682125427,
   1231907447, 1987393604, 1114196276, 1450001969, 1597453154, 1449219660, 1433349479, 963471222,
   1719282996, 1668235620, 1433106543, 1215717698, 32837, 0, 0, 0,
   0, 0, 0, 0, 0, 0, 5768, 0]

/-! ## Helper lemmas -/

/-- `uGo` emits exactly one character per unit of fuel. -/
theorem uGo_length (n : List Nat) : ∀ (k t : Nat), (uGo n k t).length = k := by
  intro k
  induction k with
  | zero => intro t; rfl
  | succ k ih => intro t; simp [uGo, ih]

/-- `P` always returns the four accumulator words. -/
theorem P_length_four (n : List Nat) (t : Nat) : (P n t).length = 4 := rfl

/-- `hexPairs` emits two characters per input character. -/
theorem hexPairs_length : ∀ l : List Char, (hexPairs l).length = 2 * l.length := by
  intro l
  induction l with
  | nil => rfl
  | cons c rest ih => simp [hexPairs, ih]; omega

/-- Every character `hexDigit` can emit is in the table. -/
theorem hexDigit_mem (i : Nat) : hexDigit i ∈ hexTable := by
  by_cases hi : i < 16
  · interval_cases i <;> decide
  · have hlen : hexTable.length ≤ i := by
      have h16 : hexTable.length = 16 := rfl
      omega
    have hd : hexDigit i = '0' := by
      unfold hexDigit
      exact List.getD_eq_default _ _ hlen
    rw [hd]
    decide

/-- Every character `hexPairs` emits is in the table. -/
theorem hexPairs_mem : ∀ (l : List Char) (c : Char), c ∈ hexPairs l → c ∈ hexTable := by
  intro l
  induction l with
  | nil => intro c hc; simp [hexPairs] at hc
  | cons x rest ih =>
      intro c hc
      simp only [hexPairs, List.mem_cons] at hc
      rcases hc with h | h | h
      · rw [h]; exact hexDigit_mem _
      · rw [h]; exact hexDigit_mem _
      · exact ih c h

/-! ## Claim theorems -/

/-- Claim C1 (the code violates it): for `fileSize = 0` the modulo in
`CalcProofOffset` is a division by zero — Go panics; there is no special
case for zero-length files.  In the embedding the panicking modulo is
`goUMod _ 0 = none`, so the offset computation fails for every token. -/
theorem calcProofOffset_fileSize_zero (accessToken : String) :
    CalcProofOffset accessToken 0 = none := rfl

/-- Claim C2: a handshake response with `rapidUpload = true` makes
`CreateFileWithProof` return the server-assigned file id with no part-upload
PUT and no finalize call issued. -/
theorem createFileWithProof_rapid_shortCircuit (driveId : String) (node : Node)
    (sha1Code proofCode : String) (pr : ProofResult) (completeNodeId : String)
    (hlivp : livpCheck node.name = false) (hrapid : pr.rapidUpload = true) :
    (CreateFileWithProof driveId node sha1Code proofCode pr completeNodeId).1
        = Except.ok pr.fileId ∧
      ∀ op ∈ (CreateFileWithProof driveId node sha1Code proofCode pr completeNodeId).2,
        isPartUpload op = false ∧ isFinalize op = false := by
  constructor
  · simp [CreateFileWithProof, hlivp, hrapid]
  · intro op hop
    simp only [CreateFileWithProof, hlivp, hrapid, Bool.false_eq_true, if_false, if_true,
      List.mem_singleton] at hop
    rw [hop]
    exact ⟨rfl, rfl⟩

/-- Witness for C2 at a concrete handshake response. -/
theorem createFileWithProof_rapid_shortCircuit_witness :
    (CreateFileWithProof "d" (Node.mk "a.txt" "root" 5) "sha" "proof"
          (ProofResult.mk [] false "fid" true "uid" "a.txt") "cid").1
        = Except.ok (ProofResult.mk [] false "fid" true "uid" "a.txt").fileId ∧
      ∀ op ∈ (CreateFileWithProof "d" (Node.mk "a.txt" "root" 5) "sha" "proof"
          (ProofResult.mk [] false "fid" true "uid" "a.txt") "cid").2,
        isPartUpload op = false ∧ isFinalize op = false :=
  createFileWithProof_rapid_shortCircuit "d" (Node.mk "a.txt" "root" 5) "sha" "proof"
    (ProofResult.mk [] false "fid" true "uid" "a.txt") "cid" (by decide) rfl

/-- Claim C3 (counterexample): the part plan for a zero-size file does not
contain exactly one placeholder part. -/
theorem makePartInfoList_zero_not_single : (makePartInfoList 0).length ≠ 1 := by decide

/-- Claim C3 (amended): `makePartInfoList 0` is the empty plan, so the
handshake request for a zero-size file carries an empty part plan. -/
theorem makePartInfoList_zero_empty : makePartInfoList 0 = [] := rfl

/-- Claim C4: for positive `size` the plan has `⌈size / MaxPartSize⌉` parts
numbered `1..n` in ascending order; an exact multiple adds no short trailing
part, and one byte over a multiple adds exactly one extra part. -/
theorem makePartInfoList_pos_plan (size : Nat) (h : 0 < size) :
    (makePartInfoList size).map PartInfo.partNumber
        = List.range' 1 ((size + MaxPartSize - 1) / MaxPartSize) ∧
      (size % MaxPartSize = 0 → (makePartInfoList size).length = size / MaxPartSize) ∧
      (size % MaxPartSize = 1 → (makePartInfoList size).length = size / MaxPartSize + 1) := by
  have hM : MaxPartSize = 1073741824 := rfl
  have hk : (if size % MaxPartSize > 0 then 1 else 0) + size / MaxPartSize
      = (size + MaxPartSize - 1) / MaxPartSize := by
    rw [hM]
    split <;> omega
  have hlen : (makePartInfoList size).length
      = (if size % MaxPartSize > 0 then 1 else 0) + size / MaxPartSize := by
    simp [makePartInfoList]
  refine ⟨?_, ?_, ?_⟩
  · have hmap : (makePartInfoList size).map PartInfo.partNumber
        = (List.range ((if size % MaxPartSize > 0 then 1 else 0) + size / MaxPartSize)).map
            (fun i => i + 1) := by
      simp [makePartInfoList, List.map_map, Function.comp]
    rw [hmap, hk, List.range'_eq_map_range]
    simp [Nat.add_comm]
  · intro h0
    rw [hlen]
    simp [h0]
  · intro h1
    rw [hlen, h1]
    simp [hM]
    omega

/-- Witness for C4 at `size = 3`. -/
theorem makePartInfoList_pos_plan_witness :
    (makePartInfoList 3).map PartInfo.partNumber
        = List.range' 1 ((3 + MaxPartSize - 1) / MaxPartSize) ∧
      (3 % MaxPartSize = 0 → (makePartInfoList 3).length = 3 / MaxPartSize) ∧
      (3 % MaxPartSize = 1 → (makePartInfoList 3).length = 3 / MaxPartSize + 1) :=
  makePartInfoList_pos_plan 3 (by decide)

/-- Claim C5: the digest matches the fixed vectors — `G "abcdef"` is
`e80b5017098950fc58aad83c8c14978e` and the digest of the empty string is
`d41d8cd98f00b204e9800998ecf8427e`. -/
theorem digest_fixed_vectors :
    G "abcdef" = "e80b5017098950fc58aad83c8c14978e" ∧
      G "" = "d41d8cd98f00b204e9800998ecf8427e" :=
  ⟨rfl, rfl⟩

/-- Claim C6: for every input string, the hex digest has length exactly 32
and every character is a lowercase hex digit (an element of
`"0123456789abcdef"`). -/
theorem digest_hex_shape (s : String) :
    (G s).length = 32 ∧ ∀ c ∈ (G s).data, c ∈ hexTable := by
  have hH : (H s).length = 16 := by
    show (U (P (D (strBytes s)) (8 * (strBytes s).length))).length = 16
    rw [U, uGo_length, P_length_four]
  constructor
  · show (hexPairs (H s)).length = 32
    rw [hexPairs_length, hH]
  · intro c hc
    exact hexPairs_mem (H s) c hc

/-- The block loop composes: running `a + b` blocks is running `a` blocks
and then `b` blocks from where they left off. -/
theorem pLoop_add (n : List Nat) (a b e : Nat) (s : Nat × Nat × Nat × Nat) :
    pLoop n (a + b) e s = pLoop n b (e + 16 * a) (pLoop n a e s) := by
  induction a generalizing e s with
  | zero => simp [pLoop]
  | succ a ih =>
      have h1 : a + 1 + b = a + b + 1 := by omega
      rw [h1]
      show pLoop n (a + b) (e + 16) (pBlock n e s) = _
      rw [ih]
      have h2 : e + 16 + 16 * a = e + 16 * (a + 1) := by ring
      rw [h2]
      rfl

/-- Claim C7: for the fixed JWT-like access token of the regression test and
`fileSize = 1477419708`, `CalcProofOffset` returns exactly 353042511. -/
theorem calcProofOffset_jwt_regression :
    CalcProofOffset jwtToken 1477419708 = some 353042511 := by
  have hpad : padArr (D (strBytes jwtToken)) (8 * (strBytes jwtToken).length) = jwtPadded := by
    rfl
  have hfuel : (jwtPadded.length + 14) / 16 = 12 := by rfl
  have c1 : pLoop jwtPadded 3 0 (1732584193, i32 (-271733879), i32 (-1732584194), 271733878) = (872269882, 2298599689, 1659194389, 875564473) := by rfl
  have c2 : pLoop jwtPadded 3 48 (872269882, 2298599689, 1659194389, 875564473) = (2175739575, 3029408588, 2907184987, 3374321648) := by rfl
  have c3 : pLoop jwtPadded 3 96 (2175739575, 3029408588, 2907184987, 3374321648) = (3294172641, 1859326496, 3722672739, 699254213) := by rfl
  have c4 : pLoop jwtPadded 3 144 (3294172641, 1859326496, 3722672739, 699254213) = (1970963960, 2269221994, 1620223507, 552665883) := by rfl
  have hloop : pLoop jwtPadded 12 0 (1732584193, i32 (-271733879), i32 (-1732584194), 271733878) = (1970963960, 2269221994, 1620223507, 552665883) := by
    calc pLoop jwtPadded 12 0 (1732584193, i32 (-271733879), i32 (-1732584194), 271733878)
        = pLoop jwtPadded 9 48 (pLoop jwtPadded 3 0 (1732584193, i32 (-271733879), i32 (-1732584194), 271733878)) :=
          pLoop_add jwtPadded 3 9 0 (1732584193, i32 (-271733879), i32 (-1732584194), 271733878)
      _ = pLoop jwtPadded 9 48 (872269882, 2298599689, 1659194389, 875564473) := congrArg (pLoop jwtPadded 9 48) c1
      _ = pLoop jwtPadded 6 96 (pLoop jwtPadded 3 48 (872269882, 2298599689, 1659194389, 875564473)) :=
          pLoop_add jwtPadded 3 6 48 (872269882, 2298599689, 1659194389, 875564473)
      _ = pLoop jwtPadded 6 96 (2175739575, 3029408588, 2907184987, 3374321648) := congrArg (pLoop jwtPadded 6 96) c2
      _ = pLoop jwtPadded 3 144 (pLoop jwtPadded 3 96 (2175739575, 3029408588, 2907184987, 3374321648)) :=
          pLoop_add jwtPadded 3 3 96 (2175739575, 3029408588, 2907184987, 3374321648)
      _ = pLoop jwtPadded 3 144 (3294172641, 1859326496, 3722672739, 699254213) := congrArg (pLoop jwtPadded 3 144) c3
      _ = (1970963960, 2269221994, 1620223507, 552665883) := c4
  have hG : G jwtToken = "f8857a756a94418713a692601b03f120" := by
    show F (U (pWords (pLoop
      (padArr (D (strBytes jwtToken)) (8 * (strBytes jwtToken).length))
      (((padArr (D (strBytes jwtToken)) (8 * (strBytes jwtToken).length)).length + 14) / 16)
      0 (1732584193, i32 (-271733879), i32 (-1732584194), 271733878)))) = "f8857a756a94418713a692601b03f120"
    rw [hpad, hfuel, hloop]
    rfl
  show goUMod ((parseHexList ((G jwtToken).data.take 16)).getD 0) 1477419708 = some 353042511
  rw [hG]
  rfl

/-- Claim C8: a handshake response with `exist = true` and
`rapidUpload = false` makes `CreateFileWithProof` surface the distinct
already-exists error with no part-upload PUT and no finalize call issued. -/
theorem createFileWithProof_exist_conflict (driveId : String) (node : Node)
    (sha1Code proofCode : String) (pr : ProofResult) (completeNodeId : String)
    (hlivp : livpCheck node.name = false) (hrapid : pr.rapidUpload = false)
    (hexist : pr.exist = true) :
    (CreateFileWithProof driveId node sha1Code proofCode pr completeNodeId).1
        = Except.error UploadError.alreadyExisted ∧
      ∀ op ∈ (CreateFileWithProof driveId node sha1Code proofCode pr completeNodeId).2,
        isPartUpload op = false ∧ isFinalize op = false := by
  constructor
  · simp [CreateFileWithProof, hlivp, hrapid, hexist]
  · intro op hop
    simp only [CreateFileWithProof, hlivp, hrapid, hexist, Bool.false_eq_true, if_false, if_true,
      List.mem_singleton] at hop
    rw [hop]
    exact ⟨rfl, rfl⟩

/-- Witness for C8 at a concrete handshake response. -/
theorem createFileWithProof_exist_conflict_witness :
    (CreateFileWithProof "d" (Node.mk "a.txt" "root" 5) "sha" "proof"
          (ProofResult.mk [] true "fid" false "uid" "a.txt") "cid").1
        = Except.error UploadError.alreadyExisted ∧
      ∀ op ∈ (CreateFileWithProof "d" (Node.mk "a.txt" "root" 5) "sha" "proof"
          (ProofResult.mk [] true "fid" false "uid" "a.txt") "cid").2,
        isPartUpload op = false ∧ isFinalize op = false :=
  createFileWithProof_exist_conflict "d" (Node.mk "a.txt" "root" 5) "sha" "proof"
    (ProofResult.mk [] true "fid" false "uid" "a.txt") "cid" (by decide) rfl rfl

/-- Claim C9 (counterexample): `CalcSha1` does not leave the cursor at
position 0 on every exit — when `io.Copy` fails, the source returns early
without any `Seek(0, 0)`, so a file whose failed copy stopped at position 1
comes back with cursor 1. -/
theorem calcSha1_copy_error_cursor_not_restored :
    ((CalcSha1 (fun _ => "") (GoFile.mk [7] 0) true 1).1).pos ≠ 0 := by decide

/-- Claim C9 (amended): on every exit path that returns (the successful
proof computation and the early seek-failure return), `calcProof` leaves
the file's read cursor at position 0; `CalcSha1` does so on its successful
exit — the only exit that returns the file — while its `io.Copy`-error
early exit returns without restoring the cursor. -/
theorem cursor_restored_all_paths :
    (∀ (accessToken : String) (fileSize : Nat) (f : GoFile) (seekOk : Bool)
        (out : GoFile × Except String String),
        calcProof accessToken fileSize f seekOk = some out → out.1.pos = 0) ∧
      ∀ (sha1Hex : List Nat → String) (f : GoFile) (errPos : Nat),
        ((CalcSha1 sha1Hex f false errPos).1).pos = 0 := by
  constructor
  · intro accessToken fileSize f seekOk out h
    unfold calcProof at h
    cases hco : CalcProofOffset accessToken fileSize with
    | none => rw [hco] at h; exact Option.noConfusion h
    | some start =>
        rw [hco] at h
        cases seekOk with
        | false => rw [← Option.some.inj h]
        | true => rw [← Option.some.inj h]
  · intro sha1Hex f errPos
    rfl

/-- Witness for C9 at a concrete file: a one-byte file starting at cursor 5
is returned with cursor 0. -/
theorem cursor_restored_all_paths_witness :
    ((GoFile.mk [7] 0, (Except.ok "BwAAAAAAAAA=" : Except String String))).1.pos = 0 :=
  cursor_restored_all_paths.1 "ab" 1 (GoFile.mk [7] 5) true
    (GoFile.mk [7] 0, Except.ok "BwAAAAAAAAA=") (by rfl)

end AliyunDrive
